import Mathlib

/-!
# Usage-report assembly of `internal/report/report.go`

A shallow embedding of the `report` package: the bit-flag registers
(`ReportingTrigger`, `UsageReportTrigger`), the measurement carriers
(`VolumeMeasure`, `DurationMeasure`) and the three usage-report assemblers.

Conventions.
* Go's unsigned machine integers (`uint8`, `uint32`, `uint64`) are natural
  numbers; a truncating conversion such as `byte(v)` is written `% 256`.
* A `[]byte` is a `List Nat`.
* A method with a pointer receiver that mutates its receiver returns the new
  receiver value.
* The external package `ie` is a black box: a field is the constructor that was
  called together with the arguments handed to it.
-/

namespace Report

/-! ## External values -/

/-- Value of `time.Time`, kept as an instant counted in nanoseconds. -/
structure Time where
  unixNano : Int
deriving DecidableEq, Repr

/-- Field produced by the external `ie` package, recorded as the constructor
function that was called and the arguments it received. -/
inductive IE where
  | NewURRID (id : Nat)
  | NewURSEQN (seq : Nat)
  | NewUsageReportTrigger (bs : List Nat)
  | NewReportingTriggers (bs : List Nat)
  | NewStartTime (t : Time)
  | NewEndTime (t : Time)
  | NewVolumeMeasurement (flags tovol ulvol dlvol tonop ulnop dlnop : Nat)
  | NewDurationMeasurement (d : Int)
deriving DecidableEq, Repr

/-- Recogniser of a Start Time field. -/
def IE.isStartTime : IE → Bool
  | .NewStartTime _ => true
  | _ => false

/-- Recogniser of an End Time field. -/
def IE.isEndTime : IE → Bool
  | .NewEndTime _ => true
  | _ => false

/-- Recogniser of a Volume Measurement field. -/
def IE.isVolumeMeasurement : IE → Bool
  | .NewVolumeMeasurement .. => true
  | _ => false

/-- Recogniser of a Duration Measurement field. -/
def IE.isDurationMeasurement : IE → Bool
  | .NewDurationMeasurement _ => true
  | _ => false

/-- The function `binary.LittleEndian.PutUint32` applied to a fresh 4-byte
slice: the slice contents afterwards. -/
def PutUint32 (v : Nat) : List Nat :=
  [v % 256, (v >>> 8) % 256, (v >>> 16) % 256, (v >>> 24) % 256]

/-- The function `binary.LittleEndian.Uint32`: it reads the first four bytes;
`none` is the index-out-of-range panic on a slice shorter than 4. -/
def Uint32 : List Nat → Option Nat
  | b0 :: b1 :: b2 :: b3 :: _ =>
    some ((b0 ||| (b1 <<< 8) ||| (b2 <<< 16) ||| (b3 <<< 24)) % 2 ^ 32)
  | _ => none

/-- Conversion `time.Duration(v)` of a `uint64`: reinterpretation as `int64`. -/
def toDuration (v : Nat) : Int :=
  if v % 2 ^ 64 < 2 ^ 63 then ((v % 2 ^ 64 : Nat) : Int)
  else ((v % 2 ^ 64 : Nat) : Int) - 2 ^ 64

/-! ## Report type -/

/-- Go type `ReportType`, an `int`. -/
abbrev ReportType := Int

def DLDR : ReportType := 0 + 1
def USAR : ReportType := 1 + 1
def ERIR : ReportType := 2 + 1
def UPIR : ReportType := 3 + 1
def TMIR : ReportType := 4 + 1
def SESR : ReportType := 5 + 1
def UISR : ReportType := 6 + 1

/-- Method `ReportType.String`; `none` is the index-out-of-range panic. -/
def ReportType.String (t : ReportType) : Option String :=
  let str := ["", "DLDR", "USAR", "ERIR", "UPIR", "TMIR", "SESR", "UISR"]
  if t < 0 then none else str[t.toNat]?

/-! ## Plain data -/

structure MeasureMethod where
  DURAT : Bool
  VOLUM : Bool
  EVENT : Bool
deriving DecidableEq, Repr

structure MeasureInformation where
  MBQE : Bool
  INAM : Bool
  RADI : Bool
  ISTM : Bool
  MNOP : Bool
  SSPOC : Bool
  ASPOC : Bool
  CIAM : Bool
deriving DecidableEq, Repr

/-! ## Reporting Trigger register -/

def RPT_TRIG_PERIO : Nat := 1 <<< 0
def RPT_TRIG_VOLTH : Nat := 1 <<< 1
def RPT_TRIG_TIMTH : Nat := 1 <<< 2
def RPT_TRIG_QUHTI : Nat := 1 <<< 3
def RPT_TRIG_START : Nat := 1 <<< 4
def RPT_TRIG_STOPT : Nat := 1 <<< 5
def RPT_TRIG_DROTH : Nat := 1 <<< 6
def RPT_TRIG_LIUSA : Nat := 1 <<< 7
def RPT_TRIG_VOLQU : Nat := 1 <<< 8
def RPT_TRIG_TIMQU : Nat := 1 <<< 9
def RPT_TRIG_ENVCL : Nat := 1 <<< 10
def RPT_TRIG_MACAR : Nat := 1 <<< 11
def RPT_TRIG_EVETH : Nat := 1 <<< 12
def RPT_TRIG_EVEQU : Nat := 1 <<< 13
def RPT_TRIG_IPMJL : Nat := 1 <<< 14
def RPT_TRIG_QUVTI : Nat := 1 <<< 15
def RPT_TRIG_REEMR : Nat := 1 <<< 16
def RPT_TRIG_UPINT : Nat := 1 <<< 17

structure ReportingTrigger where
  Flags : Nat
deriving DecidableEq, Repr

/-- Method `(*ReportingTrigger).Unmarshal`. The outer `Option` is `none` when
the call panics; otherwise the pair holds the receiver after the call and the
returned error (`none` for `nil`). -/
def ReportingTrigger.Unmarshal (r : ReportingTrigger) (b : List Nat) :
    Option (ReportingTrigger × Option String) :=
  if b.length < 2 then
    some (r, some "ReportingTrigger Unmarshal: less than 2 bytes")
  else
    let b := b ++ [0, 0]
    match Uint32 b with
    | some v => some ({ r with Flags := v }, none)
    | none => none

/-- Method `(*ReportingTrigger).IE`. -/
def ReportingTrigger.IE (r : ReportingTrigger) : IE :=
  let b := PutUint32 r.Flags
  IE.NewReportingTriggers (b.take 3)

def ReportingTrigger.PERIO (r : ReportingTrigger) : Bool :=
  (r.Flags &&& RPT_TRIG_PERIO) != 0

def ReportingTrigger.VOLTH (r : ReportingTrigger) : Bool :=
  (r.Flags &&& RPT_TRIG_VOLTH) != 0

def ReportingTrigger.TIMTH (r : ReportingTrigger) : Bool :=
  (r.Flags &&& RPT_TRIG_TIMTH) != 0

def ReportingTrigger.QUHTI (r : ReportingTrigger) : Bool :=
  (r.Flags &&& RPT_TRIG_QUHTI) != 0

def ReportingTrigger.START (r : ReportingTrigger) : Bool :=
  (r.Flags &&& RPT_TRIG_START) != 0

def ReportingTrigger.STOPT (r : ReportingTrigger) : Bool :=
  (r.Flags &&& RPT_TRIG_STOPT) != 0

def ReportingTrigger.DROTH (r : ReportingTrigger) : Bool :=
  (r.Flags &&& RPT_TRIG_DROTH) != 0

def ReportingTrigger.LIUSA (r : ReportingTrigger) : Bool :=
  (r.Flags &&& RPT_TRIG_LIUSA) != 0

def ReportingTrigger.VOLQU (r : ReportingTrigger) : Bool :=
  (r.Flags &&& RPT_TRIG_VOLQU) != 0

def ReportingTrigger.TIMQU (r : ReportingTrigger) : Bool :=
  (r.Flags &&& RPT_TRIG_TIMQU) != 0

def ReportingTrigger.ENVCL (r : ReportingTrigger) : Bool :=
  (r.Flags &&& RPT_TRIG_ENVCL) != 0

def ReportingTrigger.MACAR (r : ReportingTrigger) : Bool :=
  (r.Flags &&& RPT_TRIG_MACAR) != 0

def ReportingTrigger.EVETH (r : ReportingTrigger) : Bool :=
  (r.Flags &&& RPT_TRIG_EVETH) != 0

def ReportingTrigger.EVEQU (r : ReportingTrigger) : Bool :=
  (r.Flags &&& RPT_TRIG_EVEQU) != 0

def ReportingTrigger.IPMJL (r : ReportingTrigger) : Bool :=
  (r.Flags &&& RPT_TRIG_IPMJL) != 0

def ReportingTrigger.QUVTI (r : ReportingTrigger) : Bool :=
  (r.Flags &&& RPT_TRIG_QUVTI) != 0

def ReportingTrigger.REEMR (r : ReportingTrigger) : Bool :=
  (r.Flags &&& RPT_TRIG_REEMR) != 0

def ReportingTrigger.UPINT (r : ReportingTrigger) : Bool :=
  (r.Flags &&& RPT_TRIG_UPINT) != 0

/-! ## Usage Report Trigger register -/

def USAR_TRIG_PERIO : Nat := 1 <<< 0
def USAR_TRIG_VOLTH : Nat := 1 <<< 1
def USAR_TRIG_TIMTH : Nat := 1 <<< 2
def USAR_TRIG_QUHTI : Nat := 1 <<< 3
def USAR_TRIG_START : Nat := 1 <<< 4
def USAR_TRIG_STOPT : Nat := 1 <<< 5
def USAR_TRIG_DROTH : Nat := 1 <<< 6
def USAR_TRIG_IMMER : Nat := 1 <<< 7
def USAR_TRIG_VOLQU : Nat := 1 <<< 8
def USAR_TRIG_TIMQU : Nat := 1 <<< 9
def USAR_TRIG_LIUSA : Nat := 1 <<< 10
def USAR_TRIG_TERMR : Nat := 1 <<< 11
def USAR_TRIG_MONIT : Nat := 1 <<< 12
def USAR_TRIG_ENVCL : Nat := 1 <<< 13
def USAR_TRIG_MACAR : Nat := 1 <<< 14
def USAR_TRIG_EVETH : Nat := 1 <<< 15
def USAR_TRIG_EVEQU : Nat := 1 <<< 16
def USAR_TRIG_TEBUR : Nat := 1 <<< 17
def USAR_TRIG_IPMJL : Nat := 1 <<< 18
def USAR_TRIG_QUVTI : Nat := 1 <<< 19
def USAR_TRIG_EMRRE : Nat := 1 <<< 20
def USAR_TRIG_UPINT : Nat := 1 <<< 21

structure UsageReportTrigger where
  Flags : Nat
deriving DecidableEq, Repr

/-- Method `(*UsageReportTrigger).IE`. -/
def UsageReportTrigger.IE (t : UsageReportTrigger) : IE :=
  let b := PutUint32 t.Flags
  IE.NewUsageReportTrigger (b.take 3)

def UsageReportTrigger.PERIO (t : UsageReportTrigger) : Bool :=
  (t.Flags &&& USAR_TRIG_PERIO) != 0

def UsageReportTrigger.VOLTH (t : UsageReportTrigger) : Bool :=
  (t.Flags &&& USAR_TRIG_VOLTH) != 0

def UsageReportTrigger.TIMTH (t : UsageReportTrigger) : Bool :=
  (t.Flags &&& USAR_TRIG_TIMTH) != 0

def UsageReportTrigger.QUHTI (t : UsageReportTrigger) : Bool :=
  (t.Flags &&& USAR_TRIG_QUHTI) != 0

def UsageReportTrigger.START (t : UsageReportTrigger) : Bool :=
  (t.Flags &&& USAR_TRIG_START) != 0

def UsageReportTrigger.STOPT (t : UsageReportTrigger) : Bool :=
  (t.Flags &&& USAR_TRIG_STOPT) != 0

def UsageReportTrigger.DROTH (t : UsageReportTrigger) : Bool :=
  (t.Flags &&& USAR_TRIG_DROTH) != 0

def UsageReportTrigger.IMMER (t : UsageReportTrigger) : Bool :=
  (t.Flags &&& USAR_TRIG_IMMER) != 0

def UsageReportTrigger.VOLQU (t : UsageReportTrigger) : Bool :=
  (t.Flags &&& USAR_TRIG_VOLQU) != 0

def UsageReportTrigger.TIMQU (t : UsageReportTrigger) : Bool :=
  (t.Flags &&& USAR_TRIG_TIMQU) != 0

def UsageReportTrigger.LIUSA (t : UsageReportTrigger) : Bool :=
  (t.Flags &&& USAR_TRIG_LIUSA) != 0

def UsageReportTrigger.TERMR (t : UsageReportTrigger) : Bool :=
  (t.Flags &&& USAR_TRIG_TERMR) != 0

def UsageReportTrigger.MONIT (t : UsageReportTrigger) : Bool :=
  (t.Flags &&& USAR_TRIG_MONIT) != 0

def UsageReportTrigger.ENVCL (t : UsageReportTrigger) : Bool :=
  (t.Flags &&& USAR_TRIG_ENVCL) != 0

def UsageReportTrigger.MACAR (t : UsageReportTrigger) : Bool :=
  (t.Flags &&& USAR_TRIG_MACAR) != 0

def UsageReportTrigger.EVETH (t : UsageReportTrigger) : Bool :=
  (t.Flags &&& USAR_TRIG_EVETH) != 0

def UsageReportTrigger.EVEQU (t : UsageReportTrigger) : Bool :=
  (t.Flags &&& USAR_TRIG_EVEQU) != 0

def UsageReportTrigger.TEBUR (t : UsageReportTrigger) : Bool :=
  (t.Flags &&& USAR_TRIG_TEBUR) != 0

def UsageReportTrigger.IPMJL (t : UsageReportTrigger) : Bool :=
  (t.Flags &&& USAR_TRIG_IPMJL) != 0

def UsageReportTrigger.QUVTI (t : UsageReportTrigger) : Bool :=
  (t.Flags &&& USAR_TRIG_QUVTI) != 0

def UsageReportTrigger.EMRRE (t : UsageReportTrigger) : Bool :=
  (t.Flags &&& USAR_TRIG_EMRRE) != 0

def UsageReportTrigger.UPINT (t : UsageReportTrigger) : Bool :=
  (t.Flags &&& USAR_TRIG_UPINT) != 0

/-! ## Volume and duration measurements -/

def TOVOL : Nat := 1 <<< 0
def ULVOL : Nat := 1 <<< 1
def DLVOL : Nat := 1 <<< 2
def TONOP : Nat := 1 <<< 3
def ULNOP : Nat := 1 <<< 4
def DLNOP : Nat := 1 <<< 5

structure VolumeMeasure where
  Flags : Nat
  TotalVolume : Nat
  UplinkVolume : Nat
  DownlinkVolume : Nat
  TotalPktNum : Nat
  UplinkPktNum : Nat
  DownlinkPktNum : Nat
deriving DecidableEq, Repr

/-- Method `(*VolumeMeasure).SetFlags`: the receiver after the call. -/
def VolumeMeasure.SetFlags (m : VolumeMeasure) (mnop : Bool) : VolumeMeasure :=
  let m := { m with Flags := m.Flags ||| (TOVOL ||| ULVOL ||| DLVOL) }
  if mnop then
    { m with Flags := m.Flags ||| (TONOP ||| ULNOP ||| DLNOP) }
  else
    m

/-- Method `(*VolumeMeasure).IE`. -/
def VolumeMeasure.IE (m : VolumeMeasure) : IE :=
  IE.NewVolumeMeasurement
    m.Flags
    m.TotalVolume
    m.UplinkVolume
    m.DownlinkVolume
    m.TotalPktNum
    m.UplinkPktNum
    m.DownlinkPktNum

structure DurationMeasure where
  DurationValue : Nat
deriving DecidableEq, Repr

/-- Method `(*DurationMeasure).IE`. -/
def DurationMeasure.IE (m : DurationMeasure) : IE :=
  IE.NewDurationMeasurement (toDuration m.DurationValue)

/-! ## Usage report and its three assemblers -/

structure USAReport where
  URRID : Nat
  URSEQN : Nat
  USARTrigger : UsageReportTrigger
  VolumMeasure : VolumeMeasure
  DuratMeasure : DurationMeasure
  QueryUrrRef : Nat
  StartTime : Time
  EndTime : Time
deriving DecidableEq, Repr

/-- Body of `USAReport.IEsWithinSessReportReq`, run on the callee's copy `r` of
the receiver: the copy at the `return` statement and the returned slice. -/
def USAReport.runSessReportReq (r : USAReport)
    (method : MeasureMethod) (info : MeasureInformation) : USAReport × List IE :=
  let ies := [IE.NewURRID r.URRID, IE.NewURSEQN r.URSEQN, r.USARTrigger.IE]
  let ies :=
    if (!r.USARTrigger.START) && (!r.USARTrigger.STOPT) && (!r.USARTrigger.MACAR) then
      ies ++ [IE.NewStartTime r.StartTime, IE.NewEndTime r.EndTime]
    else ies
  let (r, ies) :=
    if method.VOLUM then
      let r := { r with VolumMeasure := r.VolumMeasure.SetFlags info.MNOP }
      (r, ies ++ [r.VolumMeasure.IE])
    else (r, ies)
  let ies :=
    if method.DURAT then ies ++ [r.DuratMeasure.IE] else ies
  (r, ies)

/-- Method `USAReport.IEsWithinSessReportReq` (value receiver). -/
def USAReport.IEsWithinSessReportReq (r : USAReport)
    (method : MeasureMethod) (info : MeasureInformation) : List IE :=
  (r.runSessReportReq method info).2

/-- Body of `USAReport.IEsWithinSessModRsp`, run on the callee's copy `r` of
the receiver: the copy at the `return` statement and the returned slice. -/
def USAReport.runSessModRsp (r : USAReport)
    (method : MeasureMethod) (info : MeasureInformation) : USAReport × List IE :=
  let ies := [IE.NewURRID r.URRID, IE.NewURSEQN r.URSEQN, r.USARTrigger.IE]
  let ies :=
    if (!r.USARTrigger.START) && (!r.USARTrigger.STOPT) && (!r.USARTrigger.MACAR) then
      ies ++ [IE.NewStartTime r.StartTime, IE.NewEndTime r.EndTime]
    else ies
  let (r, ies) :=
    if method.VOLUM then
      let r := { r with VolumMeasure := r.VolumMeasure.SetFlags info.MNOP }
      (r, ies ++ [r.VolumMeasure.IE])
    else (r, ies)
  let ies :=
    if method.DURAT then ies ++ [r.DuratMeasure.IE] else ies
  (r, ies)

/-- Method `USAReport.IEsWithinSessModRsp` (value receiver). -/
def USAReport.IEsWithinSessModRsp (r : USAReport)
    (method : MeasureMethod) (info : MeasureInformation) : List IE :=
  (r.runSessModRsp method info).2

/-- Body of `USAReport.IEsWithinSessDelRsp`, run on the callee's copy `r` of
the receiver: the copy at the `return` statement and the returned slice. -/
def USAReport.runSessDelRsp (r : USAReport)
    (method : MeasureMethod) (info : MeasureInformation) : USAReport × List IE :=
  let ies := [IE.NewURRID r.URRID, IE.NewURSEQN r.URSEQN, r.USARTrigger.IE]
  let ies :=
    if (!r.USARTrigger.START) && (!r.USARTrigger.STOPT) && (!r.USARTrigger.MACAR) then
      ies ++ [IE.NewStartTime r.StartTime, IE.NewEndTime r.EndTime]
    else ies
  let (r, ies) :=
    if method.VOLUM then
      let r := { r with VolumMeasure := r.VolumMeasure.SetFlags info.MNOP }
      (r, ies ++ [r.VolumMeasure.IE])
    else (r, ies)
  let ies :=
    if method.DURAT then ies ++ [r.DuratMeasure.IE] else ies
  (r, ies)

/-- Method `USAReport.IEsWithinSessDelRsp` (value receiver). -/
def USAReport.IEsWithinSessDelRsp (r : USAReport)
    (method : MeasureMethod) (info : MeasureInformation) : List IE :=
  (r.runSessDelRsp method info).2

/-! ## Properties of an assembler, stated once for all three -/

/-- Type shared by the three assemblers. -/
abbrev Assembler := USAReport → MeasureMethod → MeasureInformation → List IE

/-- None of the START, STOPT and MACAR bits of the register is set. -/
def UsageReportTrigger.noTimeException (t : UsageReportTrigger) : Prop :=
  t.Flags &&& USAR_TRIG_START = 0 ∧ t.Flags &&& USAR_TRIG_STOPT = 0 ∧
    t.Flags &&& USAR_TRIG_MACAR = 0

instance (t : UsageReportTrigger) : Decidable t.noTimeException := by
  unfold UsageReportTrigger.noTimeException; infer_instance

/-- Timestamp rule: the list holds the Start Time and End Time fields of the
report exactly when no excepting bit is set, and it holds some Start Time or
End Time field at all exactly in that case too. -/
def TimestampRule (f : Assembler) (r : USAReport) (method : MeasureMethod)
    (info : MeasureInformation) : Prop :=
  ((IE.NewStartTime r.StartTime ∈ f r method info ∧
      IE.NewEndTime r.EndTime ∈ f r method info) ↔ r.USARTrigger.noTimeException) ∧
  ((∃ e ∈ f r method info, e.isStartTime = true ∨ e.isEndTime = true) ↔
      r.USARTrigger.noTimeException)

/-- The three leading fields of every assembled list. -/
def headerIEs (r : USAReport) : List IE :=
  [IE.NewURRID r.URRID, IE.NewURSEQN r.URSEQN, r.USARTrigger.IE]

/-- Method gating: Volume and Duration fields appear exactly when the method
asks for them and at most once; with neither asked the list is the header and
the conditional timestamps; with both asked the list ends in Volume, Duration. -/
def MethodGating (f : Assembler) (r : USAReport) (method : MeasureMethod)
    (info : MeasureInformation) : Prop :=
  ((∃ e ∈ f r method info, e.isVolumeMeasurement = true) ↔ method.VOLUM = true) ∧
  ((∃ e ∈ f r method info, e.isDurationMeasurement = true) ↔ method.DURAT = true) ∧
  (f r method info).countP IE.isVolumeMeasurement ≤ 1 ∧
  (f r method info).countP IE.isDurationMeasurement ≤ 1 ∧
  f r { method with VOLUM := false, DURAT := false } info =
    headerIEs r ++
      (if r.USARTrigger.noTimeException then
        [IE.NewStartTime r.StartTime, IE.NewEndTime r.EndTime] else []) ∧
  ∃ pre v d, f r { method with VOLUM := true, DURAT := true } info = pre ++ [v, d] ∧
    v.isVolumeMeasurement = true ∧ d.isDurationMeasurement = true

/-- Field order: the list starts with URR ID, UR-SEQN and Usage Report Trigger,
and what follows is taken, in order, from start, end, volume, duration. -/
def FieldOrder (f : Assembler) (r : USAReport) (method : MeasureMethod)
    (info : MeasureInformation) : Prop :=
  3 ≤ (f r method info).length ∧
  (f r method info).take 3 =
    [IE.NewURRID r.URRID, IE.NewURSEQN r.URSEQN, r.USARTrigger.IE] ∧
  ((f r method info).drop 3).Sublist
    [IE.NewStartTime r.StartTime, IE.NewEndTime r.EndTime,
      (r.VolumMeasure.SetFlags info.MNOP).IE, r.DuratMeasure.IE]

/-- Bytes that a trigger field received from its constructor call; empty for
the other fields. -/
def IE.triggerBytes : IE → List Nat
  | .NewReportingTriggers bs => bs
  | .NewUsageReportTrigger bs => bs
  | _ => []

/-- Bit `mask` of a flag byte is set, as Go tests it: `flags&mask != 0`. -/
def bitSet (flags mask : Nat) : Prop := flags &&& mask ≠ 0

instance (flags mask : Nat) : Decidable (bitSet flags mask) := by
  unfold bitSet; infer_instance

/-- A volume measure whose flag byte already carries the three packet-count
bits and nothing else; all counters are zero. -/
def packetBitsPreset : VolumeMeasure :=
  { Flags := TONOP ||| ULNOP ||| DLNOP, TotalVolume := 0, UplinkVolume := 0,
    DownlinkVolume := 0, TotalPktNum := 0, UplinkPktNum := 0, DownlinkPktNum := 0 }

/-- Flag state that reads "volume always, packet counts only when requested"
as an equivalence: after `SetFlags b` the three volume bits are set and each
packet-count bit is set exactly when `b` is true. -/
def PacketBitsIffRequested (m : VolumeMeasure) (b : Bool) : Prop :=
  bitSet (m.SetFlags b).Flags TOVOL ∧ bitSet (m.SetFlags b).Flags ULVOL ∧
  bitSet (m.SetFlags b).Flags DLVOL ∧
  (bitSet (m.SetFlags b).Flags TONOP ↔ b = true) ∧
  (bitSet (m.SetFlags b).Flags ULNOP ↔ b = true) ∧
  (bitSet (m.SetFlags b).Flags DLNOP ↔ b = true)

instance (m : VolumeMeasure) (b : Bool) : Decidable (PacketBitsIffRequested m b) := by
  unfold PacketBitsIffRequested; infer_instance

/-! ## Calls as the caller sees them -/

/-- Call `r.IEsWithinSessReportReq(method, info)` seen from the caller. The
method is declared on `USAReport`, not on `*USAReport`, so Go copies `r` into
the callee and the body runs on the copy: the pair is the caller's `r` after
the call and the returned slice. -/
def USAReport.callSessReportReq (r : USAReport)
    (method : MeasureMethod) (info : MeasureInformation) : USAReport × List IE :=
  let callee := r
  (r, (callee.runSessReportReq method info).2)

/-- Call `r.IEsWithinSessModRsp(method, info)` seen from the caller (value
receiver): the caller's `r` after the call and the returned slice. -/
def USAReport.callSessModRsp (r : USAReport)
    (method : MeasureMethod) (info : MeasureInformation) : USAReport × List IE :=
  let callee := r
  (r, (callee.runSessModRsp method info).2)

/-- Call `r.IEsWithinSessDelRsp(method, info)` seen from the caller (value
receiver): the caller's `r` after the call and the returned slice. -/
def USAReport.callSessDelRsp (r : USAReport)
    (method : MeasureMethod) (info : MeasureInformation) : USAReport × List IE :=
  let callee := r
  (r, (callee.runSessDelRsp method info).2)

/-- Flag byte with the three volume-presence bits set, and the three
packet-count bits too when `mnop` holds. -/
def flagsFinalised (flags : Nat) (mnop : Bool) : Prop :=
  bitSet flags TOVOL ∧ bitSet flags ULVOL ∧ bitSet flags DLVOL ∧
  (mnop = true → bitSet flags TONOP ∧ bitSet flags ULNOP ∧ bitSet flags DLNOP)

instance (flags : Nat) (mnop : Bool) : Decidable (flagsFinalised flags mnop) := by
  unfold flagsFinalised; infer_instance

/-- A report whose volume flag byte is zero. -/
def zeroFlagsReport : USAReport :=
  { URRID := 1, URSEQN := 2, USARTrigger := ⟨0⟩,
    VolumMeasure := ⟨0, 10, 20, 30, 40, 50, 60⟩, DuratMeasure := ⟨7⟩,
    QueryUrrRef := 0, StartTime := ⟨100⟩, EndTime := ⟨200⟩ }

/-- A method with volume metering only. -/
def volumeOnly : MeasureMethod := { DURAT := false, VOLUM := true, EVENT := false }

/-- Measurement information with every option off. -/
def noOptions : MeasureInformation :=
  { MBQE := false, INAM := false, RADI := false, ISTM := false, MNOP := false,
    SSPOC := false, ASPOC := false, CIAM := false }

/-! ## Units of `time.Duration` -/

/-- Constant `time.Second` of the standard library, in nanoseconds. -/
def Second : Int := 1000000000

/-! ## Accessors in declaration order -/

/-- The 18 accessors of `ReportingTrigger`, in declaration order. -/
def ReportingTrigger.accessors : List (ReportingTrigger → Bool) :=
  [ ReportingTrigger.PERIO, ReportingTrigger.VOLTH, ReportingTrigger.TIMTH,
    ReportingTrigger.QUHTI, ReportingTrigger.START, ReportingTrigger.STOPT,
    ReportingTrigger.DROTH, ReportingTrigger.LIUSA, ReportingTrigger.VOLQU,
    ReportingTrigger.TIMQU, ReportingTrigger.ENVCL, ReportingTrigger.MACAR,
    ReportingTrigger.EVETH, ReportingTrigger.EVEQU, ReportingTrigger.IPMJL,
    ReportingTrigger.QUVTI, ReportingTrigger.REEMR, ReportingTrigger.UPINT ]

/-- The 22 accessors of `UsageReportTrigger`, in declaration order. -/
def UsageReportTrigger.accessors : List (UsageReportTrigger → Bool) :=
  [ UsageReportTrigger.PERIO, UsageReportTrigger.VOLTH, UsageReportTrigger.TIMTH,
    UsageReportTrigger.QUHTI, UsageReportTrigger.START, UsageReportTrigger.STOPT,
    UsageReportTrigger.DROTH, UsageReportTrigger.IMMER, UsageReportTrigger.VOLQU,
    UsageReportTrigger.TIMQU, UsageReportTrigger.LIUSA, UsageReportTrigger.TERMR,
    UsageReportTrigger.MONIT, UsageReportTrigger.ENVCL, UsageReportTrigger.MACAR,
    UsageReportTrigger.EVETH, UsageReportTrigger.EVEQU, UsageReportTrigger.TEBUR,
    UsageReportTrigger.IPMJL, UsageReportTrigger.QUVTI, UsageReportTrigger.EMRRE,
    UsageReportTrigger.UPINT ]

/-- Volume Measurement field built from the finalised flags of the report and
its six counters. -/
def finalisedVolumeIE (r : USAReport) (info : MeasureInformation) : IE :=
  IE.NewVolumeMeasurement
    (r.VolumMeasure.Flags ||| 0x07 ||| (if info.MNOP then 0x38 else 0))
    r.VolumMeasure.TotalVolume r.VolumMeasure.UplinkVolume r.VolumMeasure.DownlinkVolume
    r.VolumMeasure.TotalPktNum r.VolumMeasure.UplinkPktNum r.VolumMeasure.DownlinkPktNum

/-- The list holds the finalised Volume Measurement field and no other Volume
Measurement field. -/
def VolumeFromFinalisedFlags (f : Assembler) (r : USAReport) (method : MeasureMethod)
    (info : MeasureInformation) : Prop :=
  finalisedVolumeIE r info ∈ f r method info ∧
  ∀ e ∈ f r method info, e.isVolumeMeasurement = true → e = finalisedVolumeIE r info

/-- The returned list takes its Volume Measurement field from the assembler's
own copy of the report as it stands at return: the field built from the copy's
volume measure is in the list, and the list holds no other Volume Measurement
field. -/
def VolumeFieldFromCopy (copy : USAReport) (ies : List IE) : Prop :=
  copy.VolumMeasure.IE ∈ ies ∧
  ∀ e ∈ ies, e.isVolumeMeasurement = true → e = copy.VolumMeasure.IE

/-! ## Auxiliary lemmas -/

theorem and_one_shiftLeft_bne_zero (x k : Nat) :
    ((x &&& (1 <<< k)) != 0) = x.testBit k := by
  rw [Nat.one_shiftLeft, Nat.and_two_pow]
  cases h : x.testBit k <;> simp [Nat.pos_iff_ne_zero]

theorem or_shiftLeft_eq_add (a b k : Nat) (h : a < 2 ^ k) :
    a ||| (b <<< k) = a + 2 ^ k * b := by
  rw [Nat.shiftLeft_eq, Nat.mul_comm b, Nat.or_comm, ← Nat.mul_add_lt_is_or h, Nat.add_comm]

theorem noTimeException_iff (t : UsageReportTrigger) :
    t.noTimeException ↔ (t.START = false ∧ t.STOPT = false ∧ t.MACAR = false) := by
  simp [UsageReportTrigger.noTimeException, UsageReportTrigger.START,
    UsageReportTrigger.STOPT, UsageReportTrigger.MACAR]

theorem sessReportReq_eq (r : USAReport) (method : MeasureMethod)
    (info : MeasureInformation) :
    r.IEsWithinSessReportReq method info =
      headerIEs r ++
        (if r.USARTrigger.noTimeException then
          [IE.NewStartTime r.StartTime, IE.NewEndTime r.EndTime] else []) ++
        (if method.VOLUM then [(r.VolumMeasure.SetFlags info.MNOP).IE] else []) ++
        (if method.DURAT then [r.DuratMeasure.IE] else []) := by
  simp only [noTimeException_iff]
  cases hS : r.USARTrigger.START <;> cases hT : r.USARTrigger.STOPT <;>
    cases hM : r.USARTrigger.MACAR <;> cases hV : method.VOLUM <;>
    cases hD : method.DURAT <;>
    simp [USAReport.IEsWithinSessReportReq, USAReport.runSessReportReq, headerIEs, hS, hT, hM,
      hV, hD]

theorem sessModRsp_eq (r : USAReport) (method : MeasureMethod)
    (info : MeasureInformation) :
    r.IEsWithinSessModRsp method info =
      headerIEs r ++
        (if r.USARTrigger.noTimeException then
          [IE.NewStartTime r.StartTime, IE.NewEndTime r.EndTime] else []) ++
        (if method.VOLUM then [(r.VolumMeasure.SetFlags info.MNOP).IE] else []) ++
        (if method.DURAT then [r.DuratMeasure.IE] else []) := by
  simp only [noTimeException_iff]
  cases hS : r.USARTrigger.START <;> cases hT : r.USARTrigger.STOPT <;>
    cases hM : r.USARTrigger.MACAR <;> cases hV : method.VOLUM <;>
    cases hD : method.DURAT <;>
    simp [USAReport.IEsWithinSessModRsp, USAReport.runSessModRsp, headerIEs, hS, hT, hM,
      hV, hD]

theorem sessDelRsp_eq (r : USAReport) (method : MeasureMethod)
    (info : MeasureInformation) :
    r.IEsWithinSessDelRsp method info =
      headerIEs r ++
        (if r.USARTrigger.noTimeException then
          [IE.NewStartTime r.StartTime, IE.NewEndTime r.EndTime] else []) ++
        (if method.VOLUM then [(r.VolumMeasure.SetFlags info.MNOP).IE] else []) ++
        (if method.DURAT then [r.DuratMeasure.IE] else []) := by
  simp only [noTimeException_iff]
  cases hS : r.USARTrigger.START <;> cases hT : r.USARTrigger.STOPT <;>
    cases hM : r.USARTrigger.MACAR <;> cases hV : method.VOLUM <;>
    cases hD : method.DURAT <;>
    simp [USAReport.IEsWithinSessDelRsp, USAReport.runSessDelRsp, headerIEs, hS, hT, hM,
      hV, hD]

/-- Any assembler that computes the common normal form obeys the timestamp rule. -/
theorem timestampRule_of_eq (f : Assembler) (r : USAReport) (method : MeasureMethod)
    (info : MeasureInformation)
    (h : f r method info =
      headerIEs r ++
        (if r.USARTrigger.noTimeException then
          [IE.NewStartTime r.StartTime, IE.NewEndTime r.EndTime] else []) ++
        (if method.VOLUM then [(r.VolumMeasure.SetFlags info.MNOP).IE] else []) ++
        (if method.DURAT then [r.DuratMeasure.IE] else [])) :
    TimestampRule f r method info := by
  unfold TimestampRule
  rw [h]
  by_cases hx : r.USARTrigger.noTimeException <;>
    cases hV : method.VOLUM <;> cases hD : method.DURAT <;>
    simp [hx, headerIEs, UsageReportTrigger.IE, VolumeMeasure.IE, DurationMeasure.IE,
      IE.isStartTime, IE.isEndTime]

/-- Any assembler that computes the common normal form, for every method, obeys
the method gating. -/
theorem methodGating_of_eq (f : Assembler) (r : USAReport) (info : MeasureInformation)
    (h : ∀ method : MeasureMethod, f r method info =
      headerIEs r ++
        (if r.USARTrigger.noTimeException then
          [IE.NewStartTime r.StartTime, IE.NewEndTime r.EndTime] else []) ++
        (if method.VOLUM then [(r.VolumMeasure.SetFlags info.MNOP).IE] else []) ++
        (if method.DURAT then [r.DuratMeasure.IE] else []))
    (method : MeasureMethod) :
    MethodGating f r method info := by
  unfold MethodGating
  rw [h method, h { method with VOLUM := false, DURAT := false },
    h { method with VOLUM := true, DURAT := true }]
  refine ⟨?_, ?_, ?_, ?_, ?_, ?_⟩
  · by_cases hx : r.USARTrigger.noTimeException <;>
      cases hV : method.VOLUM <;> cases hD : method.DURAT <;>
      simp [hx, headerIEs, UsageReportTrigger.IE, VolumeMeasure.IE, DurationMeasure.IE,
        IE.isVolumeMeasurement]
  · by_cases hx : r.USARTrigger.noTimeException <;>
      cases hV : method.VOLUM <;> cases hD : method.DURAT <;>
      simp [hx, headerIEs, UsageReportTrigger.IE, VolumeMeasure.IE, DurationMeasure.IE,
        IE.isDurationMeasurement]
  · by_cases hx : r.USARTrigger.noTimeException <;>
      cases hV : method.VOLUM <;> cases hD : method.DURAT <;>
      simp [hx, headerIEs, UsageReportTrigger.IE, VolumeMeasure.IE, DurationMeasure.IE,
        IE.isVolumeMeasurement, List.countP_cons]
  · by_cases hx : r.USARTrigger.noTimeException <;>
      cases hV : method.VOLUM <;> cases hD : method.DURAT <;>
      simp [hx, headerIEs, UsageReportTrigger.IE, VolumeMeasure.IE, DurationMeasure.IE,
        IE.isDurationMeasurement, List.countP_cons]
  · simp
  · refine ⟨headerIEs r ++
        (if r.USARTrigger.noTimeException then
          [IE.NewStartTime r.StartTime, IE.NewEndTime r.EndTime] else []),
      (r.VolumMeasure.SetFlags info.MNOP).IE, r.DuratMeasure.IE, ?_, ?_, ?_⟩
    · simp
    · simp [VolumeMeasure.IE, IE.isVolumeMeasurement]
    · simp [DurationMeasure.IE, IE.isDurationMeasurement]

/-- Any assembler that computes the common normal form keeps the field order. -/
theorem fieldOrder_of_eq (f : Assembler) (r : USAReport) (method : MeasureMethod)
    (info : MeasureInformation)
    (h : f r method info =
      headerIEs r ++
        (if r.USARTrigger.noTimeException then
          [IE.NewStartTime r.StartTime, IE.NewEndTime r.EndTime] else []) ++
        (if method.VOLUM then [(r.VolumMeasure.SetFlags info.MNOP).IE] else []) ++
        (if method.DURAT then [r.DuratMeasure.IE] else [])) :
    FieldOrder f r method info := by
  unfold FieldOrder
  rw [h]
  refine ⟨?_, ?_, ?_⟩
  · simp [headerIEs]
  · simp [headerIEs]
  · by_cases hx : r.USARTrigger.noTimeException <;>
      cases hV : method.VOLUM <;> cases hD : method.DURAT <;>
      simp [hx, headerIEs]

theorem and_one_shiftLeft_ne_zero (x k : Nat) :
    x &&& (1 <<< k) ≠ 0 ↔ x.testBit k = true := by
  have h := and_one_shiftLeft_bne_zero x k
  rw [← h]; simp

theorem Uint32_of_bytes (b0 b1 b2 b3 : Nat) (rest : List Nat)
    (h0 : b0 < 256) (h1 : b1 < 256) (h2 : b2 < 256) (h3 : b3 < 256) :
    Uint32 (b0 :: b1 :: b2 :: b3 :: rest) =
      some (b0 + 2 ^ 8 * b1 + 2 ^ 16 * b2 + 2 ^ 24 * b3) := by
  have e1 : b0 ||| (b1 <<< 8) = b0 + 2 ^ 8 * b1 := or_shiftLeft_eq_add b0 b1 8 (by omega)
  have e2 : (b0 + 2 ^ 8 * b1) ||| (b2 <<< 16) = b0 + 2 ^ 8 * b1 + 2 ^ 16 * b2 :=
    or_shiftLeft_eq_add _ b2 16 (by omega)
  have e3 : (b0 + 2 ^ 8 * b1 + 2 ^ 16 * b2) ||| (b3 <<< 24) =
      b0 + 2 ^ 8 * b1 + 2 ^ 16 * b2 + 2 ^ 24 * b3 :=
    or_shiftLeft_eq_add _ b3 24 (by omega)
  simp only [Uint32, e1, e2, e3]
  congr 1
  omega

theorem Unmarshal_two (t : ReportingTrigger) (b0 b1 : Nat) (h0 : b0 < 256) (h1 : b1 < 256) :
    t.Unmarshal [b0, b1] = some (⟨b0 + 2 ^ 8 * b1⟩, none) := by
  have h := Uint32_of_bytes b0 b1 0 0 [] h0 h1 (by omega) (by omega)
  simp [ReportingTrigger.Unmarshal, h]

theorem Unmarshal_three (t : ReportingTrigger) (b0 b1 b2 : Nat)
    (h0 : b0 < 256) (h1 : b1 < 256) (h2 : b2 < 256) :
    t.Unmarshal [b0, b1, b2] = some (⟨b0 + 2 ^ 8 * b1 + 2 ^ 16 * b2⟩, none) := by
  have h := Uint32_of_bytes b0 b1 b2 0 [0] h0 h1 h2 (by omega)
  simp [ReportingTrigger.Unmarshal, h]

theorem PutUint32_take (v : Nat) :
    (PutUint32 v).take 3 = [v % 256, v / 2 ^ 8 % 256, v / 2 ^ 16 % 256] := by
  simp [PutUint32, Nat.shiftRight_eq_div_pow]

/-! ## Usage-report assembly: the claims -/

/-- C1: for every report, method and information, each of the three assemblers
returns a list that holds the Start Time field built from `r.StartTime` and the
End Time field built from `r.EndTime` if and only if none of the START, STOPT
and MACAR bits of `r.USARTrigger` is set; when one of them is set the list
holds no Start Time and no End Time field at all. -/
theorem C1_timestamp_exception (r : USAReport) (method : MeasureMethod)
    (info : MeasureInformation) :
    TimestampRule USAReport.IEsWithinSessReportReq r method info ∧
    TimestampRule USAReport.IEsWithinSessModRsp r method info ∧
    TimestampRule USAReport.IEsWithinSessDelRsp r method info :=
  ⟨timestampRule_of_eq _ r method info (sessReportReq_eq r method info),
   timestampRule_of_eq _ r method info (sessModRsp_eq r method info),
   timestampRule_of_eq _ r method info (sessDelRsp_eq r method info)⟩

/-- C2: for every report, method and information, each assembler's list holds a
Volume Measurement field iff `method.VOLUM` and a Duration Measurement field
iff `method.DURAT`, each at most once; with both false the list is exactly URR
id, sequence number, trigger and the conditional start and end time; with both
true the last two elements are the Volume field followed by the Duration
field. -/
theorem C2_method_gating (r : USAReport) (method : MeasureMethod)
    (info : MeasureInformation) :
    MethodGating USAReport.IEsWithinSessReportReq r method info ∧
    MethodGating USAReport.IEsWithinSessModRsp r method info ∧
    MethodGating USAReport.IEsWithinSessDelRsp r method info :=
  ⟨methodGating_of_eq _ r info (fun m => sessReportReq_eq r m info) method,
   methodGating_of_eq _ r info (fun m => sessModRsp_eq r m info) method,
   methodGating_of_eq _ r info (fun m => sessDelRsp_eq r m info) method⟩

/-- C3: for every report, method and information, each assembler returns at
least three fields, the first three being the URR ID built from `r.URRID`, the
UR-SEQN built from `r.URSEQN` and the Usage Report Trigger built from
`r.USARTrigger`; the remaining fields follow in the relative order start time,
end time, volume, duration. -/
theorem C3_field_order (r : USAReport) (method : MeasureMethod)
    (info : MeasureInformation) :
    FieldOrder USAReport.IEsWithinSessReportReq r method info ∧
    FieldOrder USAReport.IEsWithinSessModRsp r method info ∧
    FieldOrder USAReport.IEsWithinSessDelRsp r method info :=
  ⟨fieldOrder_of_eq _ r method info (sessReportReq_eq r method info),
   fieldOrder_of_eq _ r method info (sessModRsp_eq r method info),
   fieldOrder_of_eq _ r method info (sessDelRsp_eq r method info)⟩

/-- C4: for every report, method and information the three assemblers return
lists of the same length that agree at every position, hence equal lists. -/
theorem C4_assemblers_agree (r : USAReport) (method : MeasureMethod)
    (info : MeasureInformation) :
    (r.IEsWithinSessReportReq method info).length =
        (r.IEsWithinSessModRsp method info).length ∧
    (r.IEsWithinSessModRsp method info).length =
        (r.IEsWithinSessDelRsp method info).length ∧
    (∀ k : Nat, (r.IEsWithinSessReportReq method info)[k]? =
        (r.IEsWithinSessModRsp method info)[k]? ∧
      (r.IEsWithinSessModRsp method info)[k]? =
        (r.IEsWithinSessDelRsp method info)[k]?) ∧
    r.IEsWithinSessReportReq method info = r.IEsWithinSessModRsp method info ∧
    r.IEsWithinSessModRsp method info = r.IEsWithinSessDelRsp method info := by
  rw [sessReportReq_eq, sessModRsp_eq, sessDelRsp_eq]
  exact ⟨rfl, rfl, fun _ => ⟨rfl, rfl⟩, rfl, rfl⟩

/-! ## Trigger registers on the wire: the claims -/

/-- C5: round trip of the Reporting Trigger register. For every register value
`v` and every receiver, decoding the bytes that `ReportingTrigger.IE` hands to
the encoder succeeds and leaves `Flags = v & 0xFFFFFF`; hence for `v < 2^24`
the decoded register is `v` itself. -/
theorem C5_reporting_trigger_round_trip (v : Nat) (t : ReportingTrigger) :
    t.Unmarshal (ReportingTrigger.IE ⟨v⟩).triggerBytes =
        some (⟨v &&& 0xFFFFFF⟩, none) ∧
    (v < 2 ^ 24 →
      t.Unmarshal (ReportingTrigger.IE ⟨v⟩).triggerBytes = some (⟨v⟩, none)) := by
  have hmask : v &&& 0xFFFFFF = v % 2 ^ 24 := by
    have := Nat.and_pow_two_sub_one_eq_mod v 24
    simpa using this
  have hdec : t.Unmarshal (ReportingTrigger.IE ⟨v⟩).triggerBytes =
      some (⟨v % 2 ^ 24⟩, none) := by
    simp only [ReportingTrigger.IE, IE.triggerBytes, PutUint32_take]
    rw [Unmarshal_three t _ _ _ (Nat.mod_lt _ (by decide)) (Nat.mod_lt _ (by decide))
      (Nat.mod_lt _ (by decide))]
    congr 3
    omega
  refine ⟨by rw [hmask]; exact hdec, fun hv => ?_⟩
  rw [hdec, Nat.mod_eq_of_lt hv]

/-- Witness of C5 at the register value `0x123456`, below `2^24`. -/
theorem C5_reporting_trigger_round_trip_witness :
    (0x123456 : Nat) < 2 ^ 24 ∧
    (⟨0⟩ : ReportingTrigger).Unmarshal (ReportingTrigger.IE ⟨0x123456⟩).triggerBytes =
      some (⟨0x123456⟩, none) :=
  ⟨by decide, (C5_reporting_trigger_round_trip 0x123456 ⟨0⟩).2 (by decide)⟩

/-- C6: `ReportingTrigger.Unmarshal` returns an error if and only if the input
has fewer than 2 bytes. It fails on the empty input and on every 1-byte input,
it succeeds on every input of exactly 2 or exactly 3 bytes, and it never
panics. -/
theorem C6_unmarshal_error_iff_short (t : ReportingTrigger) (b : List Nat) :
    ((∃ t1 msg, t.Unmarshal b = some (t1, some msg)) ↔ b.length < 2) ∧
    ((∃ t1, t.Unmarshal b = some (t1, none)) ↔ 2 ≤ b.length) ∧
    (∃ t1 msg, t.Unmarshal [] = some (t1, some msg)) ∧
    (∀ x, ∃ t1 msg, t.Unmarshal [x] = some (t1, some msg)) ∧
    (∀ x y, ∃ t1, t.Unmarshal [x, y] = some (t1, none)) ∧
    (∀ x y z, ∃ t1, t.Unmarshal [x, y, z] = some (t1, none)) := by
  refine ⟨?_, ?_, ?_, ?_, ?_, ?_⟩
  · match b with
    | [] => simp [ReportingTrigger.Unmarshal]
    | [_] => simp [ReportingTrigger.Unmarshal]
    | [_, _] => simp [ReportingTrigger.Unmarshal, Uint32]
    | [_, _, _] => simp [ReportingTrigger.Unmarshal, Uint32]
    | _ :: _ :: _ :: _ :: tl =>
      have h : ¬ (tl.length + 1 + 1 + 1 + 1 < 2) := by omega
      simp [ReportingTrigger.Unmarshal, Uint32, h]
  · match b with
    | [] => simp [ReportingTrigger.Unmarshal]
    | [_] => simp [ReportingTrigger.Unmarshal]
    | [_, _] => simp [ReportingTrigger.Unmarshal, Uint32]
    | [_, _, _] => simp [ReportingTrigger.Unmarshal, Uint32]
    | _ :: _ :: _ :: _ :: tl =>
      have h : ¬ (tl.length + 1 + 1 + 1 + 1 < 2) := by omega
      simp [ReportingTrigger.Unmarshal, Uint32, h]
  · simp [ReportingTrigger.Unmarshal]
  · simp [ReportingTrigger.Unmarshal]
  · simp [ReportingTrigger.Unmarshal, Uint32]
  · simp [ReportingTrigger.Unmarshal, Uint32]

/-- C7: for every register value `v`, `ReportingTrigger.IE` and
`UsageReportTrigger.IE` both hand the encoder exactly the three bytes
`[v mod 256, (v / 2^8) mod 256, (v / 2^16) mod 256]`, least significant first;
bits 24 and above have no influence, so registers that agree on their low 24
bits encode identically. -/
theorem C7_trigger_encoding (v : Nat) :
    ReportingTrigger.IE ⟨v⟩ =
      IE.NewReportingTriggers [v % 256, v / 2 ^ 8 % 256, v / 2 ^ 16 % 256] ∧
    UsageReportTrigger.IE ⟨v⟩ =
      IE.NewUsageReportTrigger [v % 256, v / 2 ^ 8 % 256, v / 2 ^ 16 % 256] ∧
    (ReportingTrigger.IE ⟨v⟩).triggerBytes.length = 3 ∧
    (UsageReportTrigger.IE ⟨v⟩).triggerBytes.length = 3 ∧
    (∀ w : Nat, w % 2 ^ 24 = v % 2 ^ 24 →
      ReportingTrigger.IE ⟨w⟩ = ReportingTrigger.IE ⟨v⟩ ∧
      UsageReportTrigger.IE ⟨w⟩ = UsageReportTrigger.IE ⟨v⟩) := by
  refine ⟨?_, ?_, ?_, ?_, ?_⟩
  · simp only [ReportingTrigger.IE, PutUint32_take]
  · simp only [UsageReportTrigger.IE, PutUint32_take]
  · simp only [ReportingTrigger.IE, PutUint32_take, IE.triggerBytes, List.length_cons,
      List.length_nil]
  · simp only [UsageReportTrigger.IE, PutUint32_take, IE.triggerBytes, List.length_cons,
      List.length_nil]
  · intro w hw
    have e0 : w % 256 = v % 256 := by omega
    have e1 : w / 2 ^ 8 % 256 = v / 2 ^ 8 % 256 := by omega
    have e2 : w / 2 ^ 16 % 256 = v / 2 ^ 16 % 256 := by omega
    simp only [ReportingTrigger.IE, UsageReportTrigger.IE, PutUint32_take, e0, e1, e2,
      and_self]

/-- Witness of C7: the registers `0xAB123456` and `0x00123456` differ only in
bits 24..31 and encode to the same field. -/
theorem C7_trigger_encoding_witness :
    (0xAB123456 : Nat) % 2 ^ 24 = 0x123456 % 2 ^ 24 ∧
    ReportingTrigger.IE ⟨0xAB123456⟩ = ReportingTrigger.IE ⟨0x123456⟩ ∧
    UsageReportTrigger.IE ⟨0xAB123456⟩ = UsageReportTrigger.IE ⟨0x123456⟩ :=
  ⟨by decide, (C7_trigger_encoding 0x123456).2.2.2.2 0xAB123456 (by decide)⟩

/-- C8: `ReportingTrigger.Unmarshal` zero-extends short inputs. On a 2-byte
input `[b0, b1]` it sets `Flags = b0 + 2^8*b1`, on a 3-byte input
`[b0, b1, b2]` it sets `Flags = b0 + 2^8*b1 + 2^16*b2`; the new `Flags` is below
`2^24` and is the same whatever receiver `t` or `u` the call started from. -/
theorem C8_unmarshal_zero_extends (t u : ReportingTrigger) (b0 b1 b2 : Nat)
    (h0 : b0 < 256) (h1 : b1 < 256) (h2 : b2 < 256) :
    t.Unmarshal [b0, b1] = some (⟨b0 + 2 ^ 8 * b1⟩, none) ∧
    t.Unmarshal [b0, b1, b2] = some (⟨b0 + 2 ^ 8 * b1 + 2 ^ 16 * b2⟩, none) ∧
    (∀ t1 e, t.Unmarshal [b0, b1] = some (t1, e) → t1.Flags < 2 ^ 24) ∧
    (∀ t1 e, t.Unmarshal [b0, b1, b2] = some (t1, e) → t1.Flags < 2 ^ 24) ∧
    t.Unmarshal [b0, b1] = u.Unmarshal [b0, b1] ∧
    t.Unmarshal [b0, b1, b2] = u.Unmarshal [b0, b1, b2] := by
  refine ⟨Unmarshal_two t b0 b1 h0 h1, Unmarshal_three t b0 b1 b2 h0 h1 h2, ?_, ?_, ?_, ?_⟩
  · intro t1 e h
    rw [Unmarshal_two t b0 b1 h0 h1] at h
    simp only [Option.some.injEq, Prod.mk.injEq] at h
    rw [← h.1]
    show b0 + 2 ^ 8 * b1 < 2 ^ 24
    omega
  · intro t1 e h
    rw [Unmarshal_three t b0 b1 b2 h0 h1 h2] at h
    simp only [Option.some.injEq, Prod.mk.injEq] at h
    rw [← h.1]
    show b0 + 2 ^ 8 * b1 + 2 ^ 16 * b2 < 2 ^ 24
    omega
  · rw [Unmarshal_two t b0 b1 h0 h1, Unmarshal_two u b0 b1 h0 h1]
  · rw [Unmarshal_three t b0 b1 b2 h0 h1 h2, Unmarshal_three u b0 b1 b2 h0 h1 h2]

/-- Witness of C8 at the bytes `0x34, 0x12, 0xFF` and receivers holding
`0xFFFFFFFF` and `0`. -/
theorem C8_unmarshal_zero_extends_witness :
    (⟨0xFFFFFFFF⟩ : ReportingTrigger).Unmarshal [0x34, 0x12] =
      some (⟨0x34 + 2 ^ 8 * 0x12⟩, none) ∧
    (⟨0xFFFFFFFF⟩ : ReportingTrigger).Unmarshal [0x34, 0x12, 0xFF] =
      some (⟨0x34 + 2 ^ 8 * 0x12 + 2 ^ 16 * 0xFF⟩, none) :=
  have h := C8_unmarshal_zero_extends ⟨0xFFFFFFFF⟩ ⟨0⟩ 0x34 0x12 0xFF
    (by decide) (by decide) (by decide)
  ⟨h.1, h.2.1⟩

/-! ## Volume flags: the claims -/

theorem bitSet_iff_testBit (x k : Nat) : bitSet x (1 <<< k) ↔ x.testBit k = true :=
  and_one_shiftLeft_ne_zero x k

theorem SetFlags_flags (m : VolumeMeasure) (b : Bool) :
    (m.SetFlags b).Flags =
      if b then m.Flags ||| (TOVOL ||| ULVOL ||| DLVOL) ||| (TONOP ||| ULNOP ||| DLNOP)
      else m.Flags ||| (TOVOL ||| ULVOL ||| DLVOL) := by
  cases b <;> simp [VolumeMeasure.SetFlags]

/-- C9: starting from a flag byte of zero, `SetFlags(false)` leaves exactly
`TOVOL|ULVOL|DLVOL` (0x07), and a following `SetFlags(true)` leaves exactly
`TOVOL|ULVOL|DLVOL|TONOP|ULNOP|DLNOP` (0x3F): the packet-count bits are added
and the volume bits stay. -/
theorem C9_setFlags_from_zero (m : VolumeMeasure) (h : m.Flags = 0) :
    (m.SetFlags false).Flags = TOVOL ||| ULVOL ||| DLVOL ∧
    (m.SetFlags false).Flags = 0x07 ∧
    ((m.SetFlags false).SetFlags true).Flags =
      TOVOL ||| ULVOL ||| DLVOL ||| TONOP ||| ULNOP ||| DLNOP ∧
    ((m.SetFlags false).SetFlags true).Flags = 0x3F := by
  simp only [SetFlags_flags, h]
  decide

/-- Witness of C9 at the measure with zero flags and counters 1..6. -/
theorem C9_setFlags_from_zero_witness :
    ((⟨0, 1, 2, 3, 4, 5, 6⟩ : VolumeMeasure).SetFlags false).Flags = 0x07 ∧
    (((⟨0, 1, 2, 3, 4, 5, 6⟩ : VolumeMeasure).SetFlags false).SetFlags true).Flags = 0x3F :=
  have h := C9_setFlags_from_zero ⟨0, 1, 2, 3, 4, 5, 6⟩ rfl
  ⟨h.2.1, h.2.2.2⟩

/-- C10, as stated, fails: on a measure whose flag byte already holds the three
packet-count bits, `SetFlags(false)` leaves `0x3F`, so the packet-count bits
are set although they were not requested. -/
theorem C10_counterexample :
    (packetBitsPreset.SetFlags false).Flags = 0x3F ∧
    bitSet (packetBitsPreset.SetFlags false).Flags TONOP ∧
    bitSet (packetBitsPreset.SetFlags false).Flags ULNOP ∧
    bitSet (packetBitsPreset.SetFlags false).Flags DLNOP ∧
    ¬ PacketBitsIffRequested packetBitsPreset false := by
  decide

/-- C10, amended: for every measure and every boolean, after
`SetFlags(includePacketCounts)` the three volume bits are set, and each
packet-count bit is set if and only if `includePacketCounts` is true or that
bit was already set before the call; so on a measure with no packet-count bit
set beforehand they are set exactly when requested. -/
theorem C10_setFlags_bits (m : VolumeMeasure) (b : Bool) :
    bitSet (m.SetFlags b).Flags TOVOL ∧ bitSet (m.SetFlags b).Flags ULVOL ∧
    bitSet (m.SetFlags b).Flags DLVOL ∧
    (bitSet (m.SetFlags b).Flags TONOP ↔ (b = true ∨ bitSet m.Flags TONOP)) ∧
    (bitSet (m.SetFlags b).Flags ULNOP ↔ (b = true ∨ bitSet m.Flags ULNOP)) ∧
    (bitSet (m.SetFlags b).Flags DLNOP ↔ (b = true ∨ bitSet m.Flags DLNOP)) ∧
    ((¬ bitSet m.Flags TONOP ∧ ¬ bitSet m.Flags ULNOP ∧ ¬ bitSet m.Flags DLNOP) →
      PacketBitsIffRequested m b) := by
  have e7 : TOVOL ||| ULVOL ||| DLVOL = 7 := by decide
  have e56 : TONOP ||| ULNOP ||| DLNOP = 56 := by decide
  have t70 : Nat.testBit 7 0 = true := by decide
  have t71 : Nat.testBit 7 1 = true := by decide
  have t72 : Nat.testBit 7 2 = true := by decide
  have t73 : Nat.testBit 7 3 = false := by decide
  have t74 : Nat.testBit 7 4 = false := by decide
  have t75 : Nat.testBit 7 5 = false := by decide
  have t563 : Nat.testBit 56 3 = true := by decide
  have t564 : Nat.testBit 56 4 = true := by decide
  have t565 : Nat.testBit 56 5 = true := by decide
  unfold PacketBitsIffRequested
  simp only [SetFlags_flags, e7, e56]
  simp only [TOVOL, ULVOL, DLVOL, TONOP, ULNOP, DLNOP, bitSet_iff_testBit]
  cases b <;>
    simp [Nat.testBit_or, t70, t71, t72, t73, t74, t75, t563, t564, t565]

/-- Witness of C10 at a measure with zero flags, packet counts not requested. -/
theorem C10_setFlags_bits_witness :
    PacketBitsIffRequested ⟨0, 1, 2, 3, 4, 5, 6⟩ false :=
  (C10_setFlags_bits ⟨0, 1, 2, 3, 4, 5, 6⟩ false).2.2.2.2.2.2 (by decide)

/-! ## Side effects of assembly: the claims -/

theorem runSessReportReq_fst (r : USAReport) (method : MeasureMethod)
    (info : MeasureInformation) (h : method.VOLUM = true) :
    (r.runSessReportReq method info).1 =
      { r with VolumMeasure := r.VolumMeasure.SetFlags info.MNOP } := by
  simp [USAReport.runSessReportReq, h]

theorem runSessModRsp_fst (r : USAReport) (method : MeasureMethod)
    (info : MeasureInformation) (h : method.VOLUM = true) :
    (r.runSessModRsp method info).1 =
      { r with VolumMeasure := r.VolumMeasure.SetFlags info.MNOP } := by
  simp [USAReport.runSessModRsp, h]

theorem runSessDelRsp_fst (r : USAReport) (method : MeasureMethod)
    (info : MeasureInformation) (h : method.VOLUM = true) :
    (r.runSessDelRsp method info).1 =
      { r with VolumMeasure := r.VolumMeasure.SetFlags info.MNOP } := by
  simp [USAReport.runSessDelRsp, h]

theorem flagsFinalised_SetFlags (m : VolumeMeasure) (b : Bool) :
    flagsFinalised (m.SetFlags b).Flags b := by
  have e7 : TOVOL ||| ULVOL ||| DLVOL = 7 := by decide
  have e56 : TONOP ||| ULNOP ||| DLNOP = 56 := by decide
  have t70 : Nat.testBit 7 0 = true := by decide
  have t71 : Nat.testBit 7 1 = true := by decide
  have t72 : Nat.testBit 7 2 = true := by decide
  have t563 : Nat.testBit 56 3 = true := by decide
  have t564 : Nat.testBit 56 4 = true := by decide
  have t565 : Nat.testBit 56 5 = true := by decide
  unfold flagsFinalised
  simp only [SetFlags_flags, e7, e56]
  simp only [TOVOL, ULVOL, DLVOL, TONOP, ULNOP, DLNOP, bitSet_iff_testBit]
  cases b <;> simp [Nat.testBit_or, t70, t71, t72, t563, t564, t565]

/-- A list in the common normal form, assembled with volume metering, takes its
Volume Measurement field from the report whose volume measure went through
`SetFlags`. -/
theorem volumeFieldFromCopy_of_eq (r : USAReport) (method : MeasureMethod)
    (info : MeasureInformation) (hV : method.VOLUM = true) (l : List IE)
    (h : l =
      headerIEs r ++
        (if r.USARTrigger.noTimeException then
          [IE.NewStartTime r.StartTime, IE.NewEndTime r.EndTime] else []) ++
        (if method.VOLUM then [(r.VolumMeasure.SetFlags info.MNOP).IE] else []) ++
        (if method.DURAT then [r.DuratMeasure.IE] else [])) :
    VolumeFieldFromCopy { r with VolumMeasure := r.VolumMeasure.SetFlags info.MNOP } l := by
  unfold VolumeFieldFromCopy
  rw [h]
  by_cases hx : r.USARTrigger.noTimeException <;> cases hD : method.DURAT <;>
    simp [hx, hV, headerIEs, UsageReportTrigger.IE, DurationMeasure.IE, VolumeMeasure.IE,
      IE.isVolumeMeasurement]

/-- C11, as stated, fails: the report with zero volume flags, assembled with
`method.VOLUM` true by any of the three assemblers, still has zero volume flags
in the caller afterwards, so no volume-presence bit is set there. -/
theorem C11_counterexample :
    volumeOnly.VOLUM = true ∧ zeroFlagsReport.VolumMeasure.Flags = 0 ∧
    (zeroFlagsReport.callSessReportReq volumeOnly noOptions).1.VolumMeasure.Flags = 0 ∧
    (zeroFlagsReport.callSessModRsp volumeOnly noOptions).1.VolumMeasure.Flags = 0 ∧
    (zeroFlagsReport.callSessDelRsp volumeOnly noOptions).1.VolumMeasure.Flags = 0 ∧
    ¬ flagsFinalised
      (zeroFlagsReport.callSessReportReq volumeOnly noOptions).1.VolumMeasure.Flags
      noOptions.MNOP ∧
    ¬ flagsFinalised
      (zeroFlagsReport.callSessModRsp volumeOnly noOptions).1.VolumMeasure.Flags
      noOptions.MNOP ∧
    ¬ flagsFinalised
      (zeroFlagsReport.callSessDelRsp volumeOnly noOptions).1.VolumMeasure.Flags
      noOptions.MNOP := by
  decide

/-- C11, amended: assembly mutates only the callee's copy of the report. For
every report and every call of one of the three assemblers with `method.VOLUM`
true, the copy held by the assembler has, at return, the volume measure
`SetFlags(info.MNOP)` of the original (three volume-presence bits set, and the
three packet-count bits when `info.MNOP`); the Volume Measurement field of the
returned list is the one built from that copy, and the list holds no other;
the caller's report after the call equals the report before the call, so
volume flags that were zero before assembly are zero afterwards. -/
theorem C11_assembly_mutates_copy_only (r : USAReport) (method : MeasureMethod)
    (info : MeasureInformation) (h : method.VOLUM = true) :
    ((r.callSessReportReq method info).1 = r ∧
      (r.callSessReportReq method info).2 = r.IEsWithinSessReportReq method info ∧
      (r.runSessReportReq method info).1.VolumMeasure = r.VolumMeasure.SetFlags info.MNOP ∧
      flagsFinalised (r.runSessReportReq method info).1.VolumMeasure.Flags info.MNOP ∧
      VolumeFieldFromCopy (r.runSessReportReq method info).1
        (r.callSessReportReq method info).2 ∧
      (r.VolumMeasure.Flags = 0 →
        (r.callSessReportReq method info).1.VolumMeasure.Flags = 0)) ∧
    ((r.callSessModRsp method info).1 = r ∧
      (r.callSessModRsp method info).2 = r.IEsWithinSessModRsp method info ∧
      (r.runSessModRsp method info).1.VolumMeasure = r.VolumMeasure.SetFlags info.MNOP ∧
      flagsFinalised (r.runSessModRsp method info).1.VolumMeasure.Flags info.MNOP ∧
      VolumeFieldFromCopy (r.runSessModRsp method info).1
        (r.callSessModRsp method info).2 ∧
      (r.VolumMeasure.Flags = 0 →
        (r.callSessModRsp method info).1.VolumMeasure.Flags = 0)) ∧
    ((r.callSessDelRsp method info).1 = r ∧
      (r.callSessDelRsp method info).2 = r.IEsWithinSessDelRsp method info ∧
      (r.runSessDelRsp method info).1.VolumMeasure = r.VolumMeasure.SetFlags info.MNOP ∧
      flagsFinalised (r.runSessDelRsp method info).1.VolumMeasure.Flags info.MNOP ∧
      VolumeFieldFromCopy (r.runSessDelRsp method info).1
        (r.callSessDelRsp method info).2 ∧
      (r.VolumMeasure.Flags = 0 →
        (r.callSessDelRsp method info).1.VolumMeasure.Flags = 0)) := by
  refine ⟨⟨rfl, rfl, ?_, ?_, ?_, fun h0 => h0⟩, ⟨rfl, rfl, ?_, ?_, ?_, fun h0 => h0⟩,
    ⟨rfl, rfl, ?_, ?_, ?_, fun h0 => h0⟩⟩
  · rw [runSessReportReq_fst r method info h]
  · rw [runSessReportReq_fst r method info h]
    exact flagsFinalised_SetFlags _ _
  · rw [runSessReportReq_fst r method info h]
    exact volumeFieldFromCopy_of_eq r method info h _ (sessReportReq_eq r method info)
  · rw [runSessModRsp_fst r method info h]
  · rw [runSessModRsp_fst r method info h]
    exact flagsFinalised_SetFlags _ _
  · rw [runSessModRsp_fst r method info h]
    exact volumeFieldFromCopy_of_eq r method info h _ (sessModRsp_eq r method info)
  · rw [runSessDelRsp_fst r method info h]
  · rw [runSessDelRsp_fst r method info h]
    exact flagsFinalised_SetFlags _ _
  · rw [runSessDelRsp_fst r method info h]
    exact volumeFieldFromCopy_of_eq r method info h _ (sessDelRsp_eq r method info)

/-- Witness of C11 (amended) at the report with zero volume flags and volume
metering only: the caller's report is unchanged, the assembler's copy holds the
finalised volume measure, and the returned list carries the field with flag
byte `0x07`. -/
theorem C11_assembly_mutates_copy_only_witness :
    volumeOnly.VOLUM = true ∧
    (zeroFlagsReport.callSessReportReq volumeOnly noOptions).1 = zeroFlagsReport ∧
    (zeroFlagsReport.runSessReportReq volumeOnly noOptions).1.VolumMeasure =
      zeroFlagsReport.VolumMeasure.SetFlags noOptions.MNOP ∧
    IE.NewVolumeMeasurement 0x07 10 20 30 40 50 60 ∈
      (zeroFlagsReport.callSessReportReq volumeOnly noOptions).2 ∧
    (zeroFlagsReport.callSessReportReq volumeOnly noOptions).1.VolumMeasure.Flags = 0 :=
  have h := C11_assembly_mutates_copy_only zeroFlagsReport volumeOnly noOptions rfl
  ⟨rfl, h.1.1, h.1.2.2.1, h.1.2.2.2.2.1.1, h.1.2.2.2.2.2 rfl⟩

/-! ## Duration measurement: the claims -/

/-- C12, as stated, fails: for `DurationValue = 1` the constructor receives the
duration `1`, one nanosecond, and not one second (`10^9` nanoseconds). -/
theorem C12_counterexample :
    (⟨1⟩ : DurationMeasure).IE = IE.NewDurationMeasurement 1 ∧
    (⟨1⟩ : DurationMeasure).IE ≠ IE.NewDurationMeasurement (1 * Second) := by
  decide

/-- C12, amended: for every duration measure (a `uint64` value), `IE()` hands
the encoder exactly one duration, the conversion `time.Duration(DurationValue)`:
the stored number read as a count of nanoseconds (the number itself below
`2^63`, the number minus `2^64` from there on), with no scaling by `10^9`; it
equals `DurationValue` seconds only when `DurationValue` is zero. -/
theorem C12_duration_is_raw_count (m : DurationMeasure) (h : m.DurationValue < 2 ^ 64) :
    (∃ d, m.IE = IE.NewDurationMeasurement d) ∧
    (m.DurationValue < 2 ^ 63 →
      m.IE = IE.NewDurationMeasurement (m.DurationValue : Int)) ∧
    (2 ^ 63 ≤ m.DurationValue →
      m.IE = IE.NewDurationMeasurement ((m.DurationValue : Int) - 2 ^ 64)) ∧
    (m.IE = IE.NewDurationMeasurement ((m.DurationValue : Int) * Second) ↔
      m.DurationValue = 0) := by
  have hmod : m.DurationValue % 2 ^ 64 = m.DurationValue := Nat.mod_eq_of_lt h
  refine ⟨⟨_, rfl⟩, ?_, ?_, ?_⟩
  · intro hlt
    simp only [DurationMeasure.IE, toDuration, hmod, if_pos hlt]
  · intro hge
    have hnot : ¬ m.DurationValue < 2 ^ 63 := by omega
    simp only [DurationMeasure.IE, toDuration, hmod, if_neg hnot]
  · simp only [DurationMeasure.IE, toDuration, hmod, Second, IE.NewDurationMeasurement.injEq]
    split <;> omega

/-- Witness of C12 (amended) at `DurationValue = 90`. -/
theorem C12_duration_is_raw_count_witness :
    (90 : Nat) < 2 ^ 63 ∧
    (⟨90⟩ : DurationMeasure).IE = IE.NewDurationMeasurement 90 :=
  ⟨by decide, (C12_duration_is_raw_count ⟨90⟩ (by decide)).2.1 (by decide)⟩

/-! ## Named bits: the claims -/

theorem ReportingTrigger_accessors_eq (r : ReportingTrigger) :
    ReportingTrigger.accessors.map (fun f => f r) =
      (List.range 18).map (fun k => r.Flags.testBit k) := by
  simp only [ReportingTrigger.accessors, ReportingTrigger.PERIO, ReportingTrigger.VOLTH,
    ReportingTrigger.TIMTH, ReportingTrigger.QUHTI, ReportingTrigger.START,
    ReportingTrigger.STOPT, ReportingTrigger.DROTH, ReportingTrigger.LIUSA,
    ReportingTrigger.VOLQU, ReportingTrigger.TIMQU, ReportingTrigger.ENVCL,
    ReportingTrigger.MACAR, ReportingTrigger.EVETH, ReportingTrigger.EVEQU,
    ReportingTrigger.IPMJL, ReportingTrigger.QUVTI, ReportingTrigger.REEMR,
    ReportingTrigger.UPINT, RPT_TRIG_PERIO, RPT_TRIG_VOLTH, RPT_TRIG_TIMTH, RPT_TRIG_QUHTI,
    RPT_TRIG_START, RPT_TRIG_STOPT, RPT_TRIG_DROTH, RPT_TRIG_LIUSA, RPT_TRIG_VOLQU,
    RPT_TRIG_TIMQU, RPT_TRIG_ENVCL, RPT_TRIG_MACAR, RPT_TRIG_EVETH, RPT_TRIG_EVEQU,
    RPT_TRIG_IPMJL, RPT_TRIG_QUVTI, RPT_TRIG_REEMR, RPT_TRIG_UPINT,
    and_one_shiftLeft_bne_zero, List.map_cons, List.map_nil]
  rfl

theorem count_oneBit (n i : Nat) :
    ((List.range n).map (fun k => (1 <<< i).testBit k)).count true =
      if i < n then 1 else 0 := by
  simp only [Nat.one_shiftLeft, Nat.testBit_two_pow]
  induction n with
  | zero => simp
  | succ n ih =>
    rw [List.range_succ, List.map_append, List.count_append, ih]
    by_cases h1 : i < n
    · have : i ≠ n := by omega
      have h2 : i < n + 1 := by omega
      simp [h1, h2, this]
    · by_cases h3 : i = n
      · subst h3; simp
      · have h2 : ¬ i < n + 1 := by omega
        simp [h1, h2, h3]

theorem UsageReportTrigger_accessors_eq (t : UsageReportTrigger) :
    UsageReportTrigger.accessors.map (fun f => f t) =
      (List.range 22).map (fun k => t.Flags.testBit k) := by
  simp only [UsageReportTrigger.accessors, UsageReportTrigger.PERIO,
    UsageReportTrigger.VOLTH, UsageReportTrigger.TIMTH, UsageReportTrigger.QUHTI,
    UsageReportTrigger.START, UsageReportTrigger.STOPT, UsageReportTrigger.DROTH,
    UsageReportTrigger.IMMER, UsageReportTrigger.VOLQU, UsageReportTrigger.TIMQU,
    UsageReportTrigger.LIUSA, UsageReportTrigger.TERMR, UsageReportTrigger.MONIT,
    UsageReportTrigger.ENVCL, UsageReportTrigger.MACAR, UsageReportTrigger.EVETH,
    UsageReportTrigger.EVEQU, UsageReportTrigger.TEBUR, UsageReportTrigger.IPMJL,
    UsageReportTrigger.QUVTI, UsageReportTrigger.EMRRE, UsageReportTrigger.UPINT,
    USAR_TRIG_PERIO, USAR_TRIG_VOLTH, USAR_TRIG_TIMTH, USAR_TRIG_QUHTI, USAR_TRIG_START,
    USAR_TRIG_STOPT, USAR_TRIG_DROTH, USAR_TRIG_IMMER, USAR_TRIG_VOLQU, USAR_TRIG_TIMQU,
    USAR_TRIG_LIUSA, USAR_TRIG_TERMR, USAR_TRIG_MONIT, USAR_TRIG_ENVCL, USAR_TRIG_MACAR,
    USAR_TRIG_EVETH, USAR_TRIG_EVEQU, USAR_TRIG_TEBUR, USAR_TRIG_IPMJL, USAR_TRIG_QUVTI,
    USAR_TRIG_EMRRE, USAR_TRIG_UPINT, and_one_shiftLeft_bne_zero, List.map_cons,
    List.map_nil]
  rfl

/-- C13: named bits correspond one to one to accessors. For every
`ReportingTrigger`, the k-th of its 18 accessors in declaration order (PERIO
first, UPINT last) returns true exactly when bit k of `Flags` is set, so a
register holding the single bit `i` makes exactly one accessor true when
`i < 18` and none otherwise; the same holds for the 22 accessors of
`UsageReportTrigger` with bound 22. MACAR tests bit 11 in the former and bit 14
in the latter. -/
theorem C13_named_bits (r : ReportingTrigger) (t : UsageReportTrigger) (i : Nat) :
    ReportingTrigger.accessors.length = 18 ∧
    UsageReportTrigger.accessors.length = 22 ∧
    ReportingTrigger.accessors.map (fun f => f r) =
      (List.range 18).map (fun k => r.Flags.testBit k) ∧
    UsageReportTrigger.accessors.map (fun f => f t) =
      (List.range 22).map (fun k => t.Flags.testBit k) ∧
    (ReportingTrigger.accessors.map (fun f => f ⟨1 <<< i⟩)).count true =
      (if i < 18 then 1 else 0) ∧
    (UsageReportTrigger.accessors.map (fun f => f ⟨1 <<< i⟩)).count true =
      (if i < 22 then 1 else 0) ∧
    ReportingTrigger.accessors[0]? = some ReportingTrigger.PERIO ∧
    ReportingTrigger.accessors[11]? = some ReportingTrigger.MACAR ∧
    ReportingTrigger.accessors[17]? = some ReportingTrigger.UPINT ∧
    UsageReportTrigger.accessors[0]? = some UsageReportTrigger.PERIO ∧
    UsageReportTrigger.accessors[14]? = some UsageReportTrigger.MACAR ∧
    UsageReportTrigger.accessors[21]? = some UsageReportTrigger.UPINT ∧
    ReportingTrigger.MACAR r = r.Flags.testBit 11 ∧
    UsageReportTrigger.MACAR t = t.Flags.testBit 14 := by
  refine ⟨rfl, rfl, ReportingTrigger_accessors_eq r, UsageReportTrigger_accessors_eq t,
    ?_, ?_, rfl, rfl, rfl, rfl, rfl, rfl, ?_, ?_⟩
  · rw [ReportingTrigger_accessors_eq]
    exact count_oneBit 18 i
  · rw [UsageReportTrigger_accessors_eq]
    exact count_oneBit 22 i
  · simp only [ReportingTrigger.MACAR, RPT_TRIG_MACAR, and_one_shiftLeft_bne_zero]
  · simp only [UsageReportTrigger.MACAR, USAR_TRIG_MACAR, and_one_shiftLeft_bne_zero]

/-! ## Volume field and event metering: the claims -/

theorem SetFlags_IE (r : USAReport) (info : MeasureInformation) :
    (r.VolumMeasure.SetFlags info.MNOP).IE = finalisedVolumeIE r info := by
  have e7 : TOVOL ||| ULVOL ||| DLVOL = 7 := by decide
  have e56 : TONOP ||| ULNOP ||| DLNOP = 56 := by decide
  cases hb : info.MNOP <;>
    simp [VolumeMeasure.IE, VolumeMeasure.SetFlags, finalisedVolumeIE, hb, e7, e56]

/-- Any assembler that computes the common normal form builds its Volume
Measurement field from the finalised flags. -/
theorem volumeFromFinalisedFlags_of_eq (f : Assembler) (r : USAReport)
    (method : MeasureMethod) (info : MeasureInformation) (hV : method.VOLUM = true)
    (h : f r method info =
      headerIEs r ++
        (if r.USARTrigger.noTimeException then
          [IE.NewStartTime r.StartTime, IE.NewEndTime r.EndTime] else []) ++
        (if method.VOLUM then [(r.VolumMeasure.SetFlags info.MNOP).IE] else []) ++
        (if method.DURAT then [r.DuratMeasure.IE] else [])) :
    VolumeFromFinalisedFlags f r method info := by
  unfold VolumeFromFinalisedFlags
  rw [h, SetFlags_IE]
  by_cases hx : r.USARTrigger.noTimeException <;> cases hD : method.DURAT <;>
    simp [hx, hV, headerIEs, UsageReportTrigger.IE, DurationMeasure.IE,
      IE.isVolumeMeasurement]

/-- C14: for every report and information, when `method.VOLUM` is true the
Volume Measurement field of each assembled list is built from the finalised
flags: its flag byte is `r.VolumMeasure.Flags | 0x07 | (0x38 if info.MNOP else
0)`, followed by the six counters unchanged in the order TotalVolume,
UplinkVolume, DownlinkVolume, TotalPktNum, UplinkPktNum, DownlinkPktNum; the
list holds no other Volume Measurement field. -/
theorem C14_volume_field_finalised (r : USAReport) (method : MeasureMethod)
    (info : MeasureInformation) (h : method.VOLUM = true) :
    VolumeFromFinalisedFlags USAReport.IEsWithinSessReportReq r method info ∧
    VolumeFromFinalisedFlags USAReport.IEsWithinSessModRsp r method info ∧
    VolumeFromFinalisedFlags USAReport.IEsWithinSessDelRsp r method info :=
  ⟨volumeFromFinalisedFlags_of_eq _ r method info h (sessReportReq_eq r method info),
   volumeFromFinalisedFlags_of_eq _ r method info h (sessModRsp_eq r method info),
   volumeFromFinalisedFlags_of_eq _ r method info h (sessDelRsp_eq r method info)⟩

/-- Witness of C14 at the report with zero stored flags: the field carries the
flag byte `0x07` and the counters 10..60. -/
theorem C14_volume_field_finalised_witness :
    volumeOnly.VOLUM = true ∧
    IE.NewVolumeMeasurement 0x07 10 20 30 40 50 60 ∈
      zeroFlagsReport.IEsWithinSessReportReq volumeOnly noOptions :=
  ⟨rfl, (C14_volume_field_finalised zeroFlagsReport volumeOnly noOptions rfl).1.1⟩

/-- C15: event-based measurement adds no field. For every report, information
and two methods that agree on DURAT and VOLUM (so differ at most in EVENT),
each of the three assemblers returns the same list, of the same length, for
both. -/
theorem C15_event_adds_no_field (r : USAReport) (info : MeasureInformation)
    (m1 m2 : MeasureMethod) (hD : m1.DURAT = m2.DURAT) (hV : m1.VOLUM = m2.VOLUM) :
    r.IEsWithinSessReportReq m1 info = r.IEsWithinSessReportReq m2 info ∧
    r.IEsWithinSessModRsp m1 info = r.IEsWithinSessModRsp m2 info ∧
    r.IEsWithinSessDelRsp m1 info = r.IEsWithinSessDelRsp m2 info ∧
    (r.IEsWithinSessReportReq m1 info).length = (r.IEsWithinSessReportReq m2 info).length ∧
    (r.IEsWithinSessModRsp m1 info).length = (r.IEsWithinSessModRsp m2 info).length ∧
    (r.IEsWithinSessDelRsp m1 info).length = (r.IEsWithinSessDelRsp m2 info).length := by
  simp only [sessReportReq_eq, sessModRsp_eq, sessDelRsp_eq, hD, hV, and_self]

/-- Witness of C15: toggling EVENT on the volume-only method leaves the
session-report-request list unchanged. -/
theorem C15_event_adds_no_field_witness :
    zeroFlagsReport.IEsWithinSessReportReq volumeOnly noOptions =
      zeroFlagsReport.IEsWithinSessReportReq { volumeOnly with EVENT := true } noOptions :=
  (C15_event_adds_no_field zeroFlagsReport noOptions volumeOnly
    { volumeOnly with EVENT := true } rfl rfl).1

/-! ## Accumulation, failed decode, long input, report type: the claims -/

theorem or_or_self (x a : Nat) : x ||| a ||| a = x ||| a := by
  rw [Nat.or_assoc, Nat.or_self]

theorem or_or_or_left (x a b : Nat) : x ||| a ||| b ||| a = x ||| a ||| b := by
  apply Nat.eq_of_testBit_eq
  intro k
  simp only [Nat.testBit_or]
  cases x.testBit k <;> cases a.testBit k <;> cases b.testBit k <;> rfl

theorem and_or_self (x a : Nat) : x &&& (x ||| a) = x := by
  apply Nat.eq_of_testBit_eq
  intro k
  simp only [Nat.testBit_and, Nat.testBit_or]
  cases x.testBit k <;> cases a.testBit k <;> rfl

/-- C16: flags only accumulate, never clear. For every volume measure and
boolean, every bit set in `Flags` before `SetFlags(mnop)` is still set
afterwards (`old & new == old`), bits 6 and 7 keep their value, and the six
counters are unchanged. -/
theorem C16_flags_accumulate (m : VolumeMeasure) (mnop : Bool) :
    m.Flags &&& (m.SetFlags mnop).Flags = m.Flags ∧
    (∀ k, m.Flags.testBit k = true → (m.SetFlags mnop).Flags.testBit k = true) ∧
    (m.SetFlags mnop).Flags.testBit 6 = m.Flags.testBit 6 ∧
    (m.SetFlags mnop).Flags.testBit 7 = m.Flags.testBit 7 ∧
    (m.SetFlags mnop).TotalVolume = m.TotalVolume ∧
    (m.SetFlags mnop).UplinkVolume = m.UplinkVolume ∧
    (m.SetFlags mnop).DownlinkVolume = m.DownlinkVolume ∧
    (m.SetFlags mnop).TotalPktNum = m.TotalPktNum ∧
    (m.SetFlags mnop).UplinkPktNum = m.UplinkPktNum ∧
    (m.SetFlags mnop).DownlinkPktNum = m.DownlinkPktNum := by
  have e7 : TOVOL ||| ULVOL ||| DLVOL = 7 := by decide
  have e56 : TONOP ||| ULNOP ||| DLNOP = 56 := by decide
  have t76 : Nat.testBit 7 6 = false := by decide
  have t77 : Nat.testBit 7 7 = false := by decide
  have t566 : Nat.testBit 56 6 = false := by decide
  have t567 : Nat.testBit 56 7 = false := by decide
  refine ⟨?_, ?_, ?_, ?_, ?_, ?_, ?_, ?_, ?_, ?_⟩
  · rw [SetFlags_flags]
    cases mnop
    · simp only [Bool.false_eq_true, if_false, and_or_self]
    · simp only [if_true, Nat.or_assoc, and_or_self]
  · intro k hk
    rw [SetFlags_flags]
    cases mnop <;> simp [Nat.testBit_or, hk]
  · rw [SetFlags_flags, e7, e56]
    cases mnop <;> simp [Nat.testBit_or, t76, t566]
  · rw [SetFlags_flags, e7, e56]
    cases mnop <;> simp [Nat.testBit_or, t77, t567]
  all_goals cases mnop <;> rfl

/-- Witness of C16: bit 6, which has no defined meaning, survives
`SetFlags(true)`. -/
theorem C16_flags_accumulate_witness :
    (⟨0x40, 0, 0, 0, 0, 0, 0⟩ : VolumeMeasure).Flags.testBit 6 = true ∧
    ((⟨0x40, 0, 0, 0, 0, 0, 0⟩ : VolumeMeasure).SetFlags true).Flags.testBit 6 = true :=
  ⟨by decide, (C16_flags_accumulate ⟨0x40, 0, 0, 0, 0, 0, 0⟩ true).2.1 6 (by decide)⟩

/-- C17: a failed decode does not touch the register. For every
`ReportingTrigger` and every input of fewer than 2 bytes, `Unmarshal` returns
its error and the receiver afterwards equals the receiver before the call; its
`Flags` is not reset to zero. -/
theorem C17_failed_decode_keeps_flags (t : ReportingTrigger) (b : List Nat)
    (h : b.length < 2) :
    ∃ msg, t.Unmarshal b = some (t, some msg) := by
  refine ⟨"ReportingTrigger Unmarshal: less than 2 bytes", ?_⟩
  simp only [ReportingTrigger.Unmarshal, if_pos h]

/-- Witness of C17: a 1-byte input leaves the non-zero register `0xABC` as it
was. -/
theorem C17_failed_decode_keeps_flags_witness :
    ∃ msg, (⟨0xABC⟩ : ReportingTrigger).Unmarshal [0x01] = some (⟨0xABC⟩, some msg) :=
  C17_failed_decode_keeps_flags ⟨0xABC⟩ [0x01] (by decide)

/-- C18: `SetFlags` is idempotent and `SetFlags(true)` absorbs
`SetFlags(false)`: applying `SetFlags(b)` twice gives the state of applying it
once, and `SetFlags(false)` and `SetFlags(true)` in either order give the state
of `SetFlags(true)` alone. -/
theorem C18_setFlags_idempotent (m : VolumeMeasure) (b : Bool) :
    (m.SetFlags b).SetFlags b = m.SetFlags b ∧
    (m.SetFlags false).SetFlags true = m.SetFlags true ∧
    (m.SetFlags true).SetFlags false = m.SetFlags true := by
  refine ⟨?_, ?_, ?_⟩
  · cases b
    · simp [VolumeMeasure.SetFlags, or_or_self]
    · simp only [VolumeMeasure.SetFlags, if_true, or_or_or_left, or_or_self]
  · simp [VolumeMeasure.SetFlags, or_or_self]
  · simp [VolumeMeasure.SetFlags, or_or_or_left]

theorem Unmarshal_long (t : ReportingTrigger) (b0 b1 b2 b3 : Nat) (rest : List Nat)
    (h0 : b0 < 256) (h1 : b1 < 256) (h2 : b2 < 256) (h3 : b3 < 256) :
    t.Unmarshal (b0 :: b1 :: b2 :: b3 :: rest) =
      some (⟨b0 + 2 ^ 8 * b1 + 2 ^ 16 * b2 + 2 ^ 24 * b3⟩, none) := by
  have h := Uint32_of_bytes b0 b1 b2 b3 (rest ++ [0, 0]) h0 h1 h2 h3
  have hl : ¬ (rest.length + 1 + 1 + 1 + 1 < 2) := by omega
  simp only [ReportingTrigger.Unmarshal, List.length_cons, hl, if_false, List.cons_append, h]

/-- C19: on an input of 4 or more bytes `ReportingTrigger.Unmarshal` succeeds
and sets `Flags` to the little-endian value of the first four bytes,
`b0 + 2^8*b1 + 2^16*b2 + 2^24*b3`, whatever bytes follow; a non-zero fourth
byte therefore gives `Flags >= 2^24`. -/
theorem C19_unmarshal_long_input (t : ReportingTrigger) (b0 b1 b2 b3 : Nat)
    (rest : List Nat) (h0 : b0 < 256) (h1 : b1 < 256) (h2 : b2 < 256) (h3 : b3 < 256) :
    t.Unmarshal (b0 :: b1 :: b2 :: b3 :: rest) =
      some (⟨b0 + 2 ^ 8 * b1 + 2 ^ 16 * b2 + 2 ^ 24 * b3⟩, none) ∧
    (∀ other : List Nat, t.Unmarshal (b0 :: b1 :: b2 :: b3 :: other) =
      t.Unmarshal (b0 :: b1 :: b2 :: b3 :: rest)) ∧
    (0 < b3 → ∃ t1, t.Unmarshal (b0 :: b1 :: b2 :: b3 :: rest) = some (t1, none) ∧
      2 ^ 24 ≤ t1.Flags) := by
  refine ⟨Unmarshal_long t b0 b1 b2 b3 rest h0 h1 h2 h3, fun other => ?_, fun hpos => ?_⟩
  · rw [Unmarshal_long t b0 b1 b2 b3 rest h0 h1 h2 h3,
      Unmarshal_long t b0 b1 b2 b3 other h0 h1 h2 h3]
  · refine ⟨_, Unmarshal_long t b0 b1 b2 b3 rest h0 h1 h2 h3, ?_⟩
    show 2 ^ 24 ≤ b0 + 2 ^ 8 * b1 + 2 ^ 16 * b2 + 2 ^ 24 * b3
    omega

/-- Witness of C19 at the five bytes `0x56, 0x34, 0x12, 0x01, 0xFF`: the
register becomes `0x01123456`, at least `2^24`. -/
theorem C19_unmarshal_long_input_witness :
    (⟨0⟩ : ReportingTrigger).Unmarshal [0x56, 0x34, 0x12, 0x01, 0xFF] =
      some (⟨0x01123456⟩, none) ∧ (2 : Nat) ^ 24 ≤ 0x01123456 :=
  ⟨(C19_unmarshal_long_input ⟨0⟩ 0x56 0x34 0x12 0x01 [0xFF]
      (by decide) (by decide) (by decide) (by decide)).1, by decide⟩

theorem ReportType_String_none (t : Int) :
    ReportType.String t = none ↔ (t < 0 ∨ 7 < t) := by
  unfold ReportType.String
  by_cases hneg : t < 0
  · simp [hneg]
  · simp only [hneg, if_false, false_or]
    rw [List.getElem?_eq_none_iff]
    simp only [List.length_cons, List.length_nil]
    have hnat : ((t.toNat : Nat) : Int) = t := Int.toNat_of_nonneg (by omega)
    omega

theorem ReportType_String_some (t : Int) :
    (∃ s, ReportType.String t = some s) ↔ (0 ≤ t ∧ t ≤ 7) := by
  have key := ReportType_String_none t
  constructor
  · rintro ⟨s, hs⟩
    have hno : ¬ (t < 0 ∨ 7 < t) := fun h => by
      rw [key.mpr h] at hs
      cases hs
    omega
  · intro h
    have hne : ReportType.String t ≠ none := fun hn => by
      have := key.mp hn
      omega
    exact Option.ne_none_iff_exists'.mp hne

/-- C20: `ReportType.String` returns exactly on 0..7. Each of the seven
declared constants (DLDR = 1, ..., UISR = 7) is in bounds of the table and
yields its own name, the seven names being pairwise distinct; 0 yields the
empty string; every `t < 0` and every `t > 7` is out of range. -/
theorem C20_reportType_string (t : ReportType) :
    ((∃ s, ReportType.String t = some s) ↔ (0 ≤ t ∧ t ≤ 7)) ∧
    (ReportType.String t = none ↔ (t < 0 ∨ 7 < t)) ∧
    [DLDR, USAR, ERIR, UPIR, TMIR, SESR, UISR] = [1, 2, 3, 4, 5, 6, 7] ∧
    [DLDR, USAR, ERIR, UPIR, TMIR, SESR, UISR].map ReportType.String =
      [some "DLDR", some "USAR", some "ERIR", some "UPIR", some "TMIR", some "SESR",
        some "UISR"] ∧
    ([DLDR, USAR, ERIR, UPIR, TMIR, SESR, UISR].map ReportType.String).Nodup ∧
    ReportType.String 0 = some "" :=
  ⟨ReportType_String_some t, ReportType_String_none t, by decide, by decide, by decide,
    by decide⟩

end Report
